import Mathlib

/-!
Shallow embedding of the ship/combat core of the oort3 simulator
(src/simulator/src/ship.rs and src/simulator/src/scenario.rs), together
with proofs of the specification's claims about it.

Scalars (`f64` in the source) are modelled as rationals.  The physics tick
length `simulation::PHYSICS_TICK_LENGTH` is defined in
src/simulator/src/simulation.rs, which is not part of the excerpted source;
it is abstracted as an explicit parameter `dt` of the functions that read it.
-/

namespace Oort

/-- Two-dimensional vector, modelling nalgebra's `Vector2<f64>`. -/
structure Vec2 where
  x : ℚ
  y : ℚ
deriving DecidableEq, Repr

instance : Add Vec2 := ⟨fun a b => ⟨a.x + b.x, a.y + b.y⟩⟩

instance : Sub Vec2 := ⟨fun a b => ⟨a.x - b.x, a.y - b.y⟩⟩

instance : Neg Vec2 := ⟨fun a => ⟨-a.x, -a.y⟩⟩

/-- Componentwise minimum, modelling nalgebra's `Vector2::inf`. -/
def Vec2.inf (a b : Vec2) : Vec2 := ⟨min a.x b.x, min a.y b.y⟩

/-- Componentwise maximum, modelling nalgebra's `Vector2::sup`. -/
def Vec2.sup (a b : Vec2) : Vec2 := ⟨max a.x b.x, max a.y b.y⟩

/-- Scale a vector by a scalar (`v * mass` in the source). -/
def Vec2.scale (a : Vec2) (k : ℚ) : Vec2 := ⟨a.x * k, a.y * k⟩

/-- A planar rotation, modelling nalgebra's `Rotation2` / a body's unit
complex rotation by its cosine and sine components.  The source only ever
builds rotations from angles (`Rotation2::new`, `RigidBodyBuilder::rotation`)
and then applies them to vectors; we model the applied rotation directly. -/
structure Rot where
  c : ℚ
  s : ℚ
deriving DecidableEq, Repr

/-- Apply a rotation to a vector, modelling `Rotation2::transform_vector`
(and multiplication by `to_rotation_matrix()`). -/
def Rot.transform_vector (r : Rot) (v : Vec2) : Vec2 :=
  ⟨r.c * v.x - r.s * v.y, r.s * v.x + r.c * v.y⟩

/-- Weapon state, from `struct Weapon` in src/simulator/src/ship.rs. -/
structure Weapon where
  reload_time : ℚ
  reload_time_remaining : ℚ
  damage : ℚ
deriving DecidableEq, Repr

/-- Radar state, from `struct Radar` in src/simulator/src/ship.rs. -/
structure Radar where
  heading : ℚ
  width : ℚ
  power : ℚ
  rx_cross_section : ℚ
  min_rssi : ℚ
  scanned : Bool
deriving DecidableEq, Repr

/-- Ship class, from `enum ShipClass` in src/simulator/src/ship.rs. -/
inductive ShipClass where
  | Fighter : ShipClass
  | Asteroid (variant : ℤ) : ShipClass
  | Target : ShipClass
  | Missile : ShipClass
deriving DecidableEq, Repr

/-- Per-ship state, from `struct ShipData` in src/simulator/src/ship.rs.
The `class` field is written `«class»` because `class` is a Lean keyword. -/
structure ShipData where
  «class» : ShipClass
  weapons : List Weapon
  missile : Option Weapon
  health : ℚ
  team : ℤ
  acceleration : Vec2
  angular_acceleration : ℚ
  max_acceleration : Vec2
  max_angular_acceleration : ℚ
  destroyed : Bool
  radar : Option Radar
  radar_cross_section : ℚ
deriving DecidableEq, Repr

/-- Rigid-body state, modelling the fields of a rapier2d `RigidBody` that
the excerpted code reads or writes: position (translation and rotation),
linear and angular velocity, mass properties, and the force/torque
accumulators written by `apply_force` / `apply_torque`. -/
structure RigidBody where
  translation : Vec2
  linvel : Vec2
  rotation : Rot
  angvel : ℚ
  mass : ℚ
  inv_principal_inertia_sqrt : ℚ
  force : Vec2
  torque : ℚ
deriving DecidableEq, Repr

/-- Accumulate a force on a body, modelling rapier2d's
`RigidBody::apply_force(force, true)`. -/
def RigidBody.apply_force (b : RigidBody) (f : Vec2) : RigidBody :=
  { b with force := b.force + f }

/-- Accumulate a torque on a body, modelling rapier2d's
`RigidBody::apply_torque(torque, true)`. -/
def RigidBody.apply_torque (b : RigidBody) (t : ℚ) : RigidBody :=
  { b with torque := b.torque + t }

/-- Bullet payload, from `struct BulletData` in src/simulator/src/bullet.rs
(visible through its uses in ship.rs and scenario.rs): damage and team. -/
structure BulletData where
  damage : ℚ
  team : ℤ
deriving DecidableEq, Repr

/-- A bullet in the world: its `BulletData` plus the physics-engine-owned
position and velocity it is created with. -/
structure Bullet where
  position : Vec2
  velocity : Vec2
  data : BulletData
deriving DecidableEq, Repr

/-- Ship handle, from `struct ShipHandle(pub Index)`: an opaque index. -/
abbrev ShipHandle := ℕ

/-- Point update of a partial map keyed by handles. -/
def updf {α : Type} (m : ShipHandle → Option α) (k : ShipHandle) (v : Option α) :
    ShipHandle → Option α :=
  fun k' => if k' = k then v else m k'

/-- The stores of the world that the excerpted code touches, from
`Simulation` in src/simulator/src/simulation.rs as used by ship.rs and
scenario.rs: the ship set (`ships`), the per-handle ship-data map
(`ship_data`), the physics body and collider sets (`bodies`, `colliders`,
keyed here by the owning ship's handle; each ship is created with one
collider attached to its body), the per-ship controller map
(`ship_controllers`, whose contents the excerpted code never inspects), and
the bullet store.  Removal of a body also removes its attached collider,
as rapier2d's `RigidBodySet::remove` does. -/
structure Simulation where
  ships : List ShipHandle
  ship_data : ShipHandle → Option ShipData
  bodies : ShipHandle → Option RigidBody
  colliders : ShipHandle → Option Unit
  ship_controllers : ShipHandle → Option Unit
  bullets : List Bullet

/-- Modelled from the spec: `bullet::create` (src/simulator/src/bullet.rs,
not under the excerpted sources) inserts into the world a bullet with the
given position, velocity and `BulletData`; per the spec, "bullets carry no
other state besides physics-engine-owned position/velocity". -/
def bullet_create (sim : Simulation) (x y vx vy : ℚ) (data : BulletData) :
    Simulation :=
  { sim with bullets := sim.bullets ++ [⟨⟨x, y⟩, ⟨vx, vy⟩, data⟩] }

/-- The componentwise clamp computed by `ShipAccessorMut::accelerate`:
`acceleration.inf(&max_acceleration).sup(&-max_acceleration)`. -/
def clamp_accel (acceleration max_acceleration : Vec2) : Vec2 :=
  (acceleration.inf max_acceleration).sup (-max_acceleration)

/-- `ShipAccessorMut::accelerate` (src/simulator/src/ship.rs lines 265-269):
clamp the requested acceleration componentwise and overwrite the ship's
pending acceleration.  The source unwraps the ship-data lookup; a missing
ship is modelled as leaving the world unchanged, and all theorems about
this operation assume the ship is present. -/
def accelerate (sim : Simulation) (handle : ShipHandle) (acceleration : Vec2) :
    Simulation :=
  match sim.ship_data handle with
  | none => sim
  | some data =>
    let max_acceleration := data.max_acceleration
    let clamped_acceleration := clamp_accel acceleration max_acceleration
    { sim with
      ship_data := updf sim.ship_data handle
        (some { data with acceleration := clamped_acceleration }) }

/-- The `index as usize` cast performed by `fire_weapon` on its `i64`
argument: conversion modulo 2^64, so a negative index becomes a huge
unsigned value (and therefore out of range for any real weapon list). -/
def usize_of_i64 (index : ℤ) : ℕ := (index % (2 : ℤ) ^ 64).toNat

/-- `ShipAccessorMut::fire_weapon` (src/simulator/src/ship.rs lines 278-308):
return unchanged when the index is out of range or the weapon is still
reloading; otherwise bump `reload_time_remaining` by `reload_time` and
spawn one bullet at the body-local offset (20, 0) with velocity
`linvel + rotation * (1000, 0)`, carrying the weapon's damage and the
ship's team.  Missing ship data or body (which the source `unwrap`s)
is modelled as leaving the world unchanged. -/
def fire_weapon (sim : Simulation) (handle : ShipHandle) (index : ℤ) :
    Simulation :=
  match sim.ship_data handle with
  | none => sim
  | some ship_data =>
    if usize_of_i64 index ≥ ship_data.weapons.length then sim
    else
      match ship_data.weapons[usize_of_i64 index]? with
      | none => sim
      | some weapon =>
        let team := ship_data.team
        let damage := weapon.damage
        if weapon.reload_time_remaining > 0 then sim
        else
          let weapons' := ship_data.weapons.set (usize_of_i64 index)
            { weapon with
              reload_time_remaining :=
                weapon.reload_time_remaining + weapon.reload_time }
          let sim := { sim with
            ship_data := updf sim.ship_data handle
              (some { ship_data with weapons := weapons' }) }
          match sim.bodies handle with
          | none => sim
          | some body =>
            let speed : ℚ := 1000
            let offset : Vec2 := ⟨20, 0⟩
            let rot := body.rotation
            let p := body.translation + rot.transform_vector offset
            let v := body.linvel + rot.transform_vector ⟨speed, 0⟩
            bullet_create sim p.x p.y v.x v.y ⟨damage, team⟩

/-- `ShipAccessorMut::explode` (src/simulator/src/ship.rs lines 338-360):
no-op on an already-destroyed ship; otherwise mark the ship destroyed and
spawn 25 bullets at the ship's position, each with damage 20, the ship's
team, and velocity `linvel` plus a speed-1000 vector rotated by a draw
from `new_rng(0)`.

Modelled from the spec: `new_rng` (src/simulator/src/rng.rs, not under the
excerpted sources) builds a deterministic random source from its seed.
The composite of `rng.gen_range(0.0..TAU)` and `Rotation2::new` is
abstracted as `rng_rot seed i`, the rotation produced by the i-th draw
from `new_rng seed`; `explode` always uses seed 0, as in the source. -/
def explode (rng_rot : ℕ → ℕ → Rot) (sim : Simulation) (handle : ShipHandle) :
    Simulation :=
  match sim.ship_data handle with
  | none => sim
  | some data =>
    if data.destroyed then sim
    else
      let data := { data with destroyed := true }
      let sim := { sim with
        ship_data := updf sim.ship_data handle (some data) }
      match sim.bodies handle with
      | none => sim
      | some body =>
        let team := data.team
        let speed : ℚ := 1000
        let p := body.translation
        (List.range 25).foldl
          (fun s i =>
            let rot := rng_rot 0 i
            let v := body.linvel + rot.transform_vector ⟨speed, 0⟩
            bullet_create s p.x p.y v.x v.y ⟨20, team⟩)
          sim

/-- Step (1) of `ShipAccessorMut::tick` (the `// Weapons.` block): decrement
every weapon's and the missile slot's `reload_time_remaining` by the physics
tick length `dt`, floored at 0. -/
def tick_weapons (dt : ℚ) (sim : Simulation) (handle : ShipHandle) :
    Simulation :=
  match sim.ship_data handle with
  | none => sim
  | some ship_data =>
    let ship_data := { ship_data with
      weapons := ship_data.weapons.map fun weapon =>
        { weapon with
          reload_time_remaining := max (weapon.reload_time_remaining - dt) 0 }
      missile := ship_data.missile.map fun missile =>
        { missile with
          reload_time_remaining := max (missile.reload_time_remaining - dt) 0 } }
    { sim with ship_data := updf sim.ship_data handle (some ship_data) }

/-- Step (2) of `ShipAccessorMut::tick` (the `// Radar.` block): clear the
radar's `scanned` flag. -/
def tick_radar (sim : Simulation) (handle : ShipHandle) : Simulation :=
  match sim.ship_data handle with
  | none => sim
  | some ship_data =>
    let ship_data := { ship_data with
      radar := ship_data.radar.map fun radar => { radar with scanned := false } }
    { sim with ship_data := updf sim.ship_data handle (some ship_data) }

/-- Step (3) of `ShipAccessorMut::tick` (the `// Acceleration.` block):
rotate the pending acceleration into world space by the body's rotation,
scale by the body's mass, apply it as a force, then zero the pending
acceleration. -/
def tick_acceleration (sim : Simulation) (handle : ShipHandle) : Simulation :=
  match sim.ship_data handle, sim.bodies handle with
  | some ship_data, some body =>
    let acceleration := ship_data.acceleration
    let mass := body.mass
    let body := body.apply_force
      ((body.rotation.transform_vector acceleration).scale mass)
    { sim with
      bodies := updf sim.bodies handle (some body)
      ship_data := updf sim.ship_data handle
        (some { ship_data with acceleration := ⟨0, 0⟩ }) }
  | _, _ => sim

/-- Step (4) of `ShipAccessorMut::tick` (the `// Torque.` block): scale the
pending angular acceleration by the body's principal moment of inertia
(`inertia_sqrt * inertia_sqrt` with
`inertia_sqrt = 1 / inv_principal_inertia_sqrt`), apply it as a torque,
then zero the pending angular acceleration. -/
def tick_torque (sim : Simulation) (handle : ShipHandle) : Simulation :=
  match sim.ship_data handle, sim.bodies handle with
  | some ship_data, some body =>
    let inertia_sqrt := 1 / body.inv_principal_inertia_sqrt
    let torque := ship_data.angular_acceleration * inertia_sqrt * inertia_sqrt
    let body := body.apply_torque torque
    { sim with
      bodies := updf sim.bodies handle (some body)
      ship_data := updf sim.ship_data handle
        (some { ship_data with angular_acceleration := 0 }) }
  | _, _ => sim

/-- Step (5) of `ShipAccessorMut::tick` (the `// Destruction.` block): if the
ship is destroyed, remove it from the ship set and remove its body from the
physics world; removing the body also removes its attached collider
(rapier2d `RigidBodySet::remove` with the collider set).  Nothing else is
removed: in particular the `ship_data` and `ship_controllers` entries stay. -/
def tick_destruction (sim : Simulation) (handle : ShipHandle) : Simulation :=
  match sim.ship_data handle with
  | none => sim
  | some ship_data =>
    if ship_data.destroyed then
      { sim with
        ships := sim.ships.filter fun s => s ≠ handle
        bodies := updf sim.bodies handle none
        colliders := updf sim.colliders handle none }
    else sim

/-- `ShipAccessorMut::tick` (src/simulator/src/ship.rs lines 362-413),
translated block by block in source order: weapons, radar, acceleration,
torque, destruction.  `dt` stands for `simulation::PHYSICS_TICK_LENGTH`.
Missing ship data or body (which the source `unwrap`s) is modelled as
leaving the world unchanged. -/
def tick (dt : ℚ) (sim : Simulation) (handle : ShipHandle) : Simulation :=
  match sim.ship_data handle, sim.bodies handle with
  | some ship_data, some body =>
    -- Weapons.
    let ship_data : ShipData := { ship_data with
      weapons := ship_data.weapons.map fun weapon =>
        { weapon with
          reload_time_remaining := max (weapon.reload_time_remaining - dt) 0 }
      missile := ship_data.missile.map fun missile =>
        { missile with
          reload_time_remaining := max (missile.reload_time_remaining - dt) 0 } }
    -- Radar.
    let ship_data : ShipData := { ship_data with
      radar := ship_data.radar.map fun radar => { radar with scanned := false } }
    -- Acceleration.
    let acceleration := ship_data.acceleration
    let mass := body.mass
    let body : RigidBody := body.apply_force
      ((body.rotation.transform_vector acceleration).scale mass)
    let ship_data : ShipData := { ship_data with acceleration := ⟨0, 0⟩ }
    -- Torque.
    let inertia_sqrt := 1 / body.inv_principal_inertia_sqrt
    let torque := ship_data.angular_acceleration * inertia_sqrt * inertia_sqrt
    let body : RigidBody := body.apply_torque torque
    let ship_data : ShipData := { ship_data with angular_acceleration := 0 }
    let sim : Simulation := { sim with
      ship_data := updf sim.ship_data handle (some ship_data)
      bodies := updf sim.bodies handle (some body) }
    -- Destruction.
    if ship_data.destroyed then
      { sim with
        ships := sim.ships.filter fun s => s ≠ handle
        bodies := updf sim.bodies handle none
        colliders := updf sim.colliders handle none }
    else sim
  | _, _ => sim

/-- Scenario status, from `enum Status` in src/simulator/src/scenario.rs
lines 14-19: exactly the variants `Running`, `Victory { team }` and
`Failed`.  (The in-repo consumer `run_simulation` in
src/tools/src/bin/tournament.rs line 192 additionally matches a
`scenario::Status::Draw` variant, which this enum does not have.) -/
inductive Status where
  | Running : Status
  | Victory (team : ℤ) : Status
  | Failed : Status
deriving DecidableEq, Repr

/-- The distinct teams of the non-Missile ships of the world: the contents
of the `alive_teams` hash set built by `check_victory`
(src/simulator/src/scenario.rs lines 22-29), as a duplicate-free list.
Ships whose data lookup fails are skipped (the source `unwrap`s; every
theorem about victory evaluation concerns worlds where the lookup
succeeds for every ship in the ship set). -/
def alive_teams (sim : Simulation) : List ℤ :=
  (sim.ships.filterMap fun handle =>
    match sim.ship_data handle with
    | none => none
    | some data =>
      if data.«class» = ShipClass.Missile then none else some data.team).dedup

/-- `check_victory` (src/simulator/src/scenario.rs lines 21-39): no distinct
non-Missile team alive gives `Victory { team: 0 }`; exactly one gives
`Victory` for that team; two or more give `Running`. -/
def check_victory (sim : Simulation) : Status :=
  let teams := alive_teams sim
  if teams.isEmpty then Status.Victory 0
  else if teams.length = 1 then Status.Victory teams.headI
  else Status.Running

/-- `check_tutorial_victory` (src/simulator/src/scenario.rs lines 41-47):
pass `Victory { team: 0 }` through, map any other `Victory` to `Failed`,
and pass everything else (`Running`, `Failed`) through. -/
def check_tutorial_victory (sim : Simulation) : Status :=
  match check_victory sim with
  | Status.Victory team =>
    if team = 0 then Status.Victory team else Status.Failed
  | x => x

/-! ### Component lemmas for the vector operations -/

@[simp] theorem Vec2.add_x (a b : Vec2) : (a + b).x = a.x + b.x := rfl

@[simp] theorem Vec2.add_y (a b : Vec2) : (a + b).y = a.y + b.y := rfl

@[simp] theorem Vec2.sub_x (a b : Vec2) : (a - b).x = a.x - b.x := rfl

@[simp] theorem Vec2.sub_y (a b : Vec2) : (a - b).y = a.y - b.y := rfl

@[simp] theorem Vec2.neg_x (a : Vec2) : (-a).x = -a.x := rfl

@[simp] theorem Vec2.neg_y (a : Vec2) : (-a).y = -a.y := rfl

/-! ### Helper lemmas about the store-update function -/

theorem updf_self {α : Type} (m : ShipHandle → Option α) (k : ShipHandle)
    (v : Option α) : updf m k v k = v := by
  simp [updf]

theorem updf_updf {α : Type} (m : ShipHandle → Option α) (k : ShipHandle)
    (v w : Option α) : updf (updf m k v) k w = updf m k w := by
  funext k'
  by_cases h : k' = k <;> simp [updf, h]

/-! ### Concrete fixtures used by witnesses and counterexamples -/

/-- A concrete rigid body used by witnesses: nonzero velocity, a nontrivial
rational rotation (cosine 3/5, sine 4/5), mass 2, inverse principal inertia
square root 1/3. -/
def body0 : RigidBody :=
  { translation := ⟨7, -3⟩
    linvel := ⟨10, 5⟩
    rotation := ⟨3/5, 4/5⟩
    angvel := 0
    mass := 2
    inv_principal_inertia_sqrt := 1/3
    force := ⟨0, 0⟩
    torque := 0 }

/-- A concrete fighter-like ship for a given team: one gun with reload time
1/5 and damage 20, a missile slot, a radar whose `scanned` flag is set, and
rational acceleration limits. -/
def dataTeam (team : ℤ) : ShipData :=
  { «class» := ShipClass.Fighter
    weapons := [⟨1/5, 0, 20⟩]
    missile := some ⟨5, 0, 0⟩
    health := 100
    team := team
    acceleration := ⟨1, 2⟩
    angular_acceleration := 3
    max_acceleration := ⟨200, 100⟩
    max_angular_acceleration := 6
    destroyed := false
    radar := some ⟨0, 1, 20000, 5, 1/100, true⟩
    radar_cross_section := 10 }

/-- A world holding the given ships (handle `i` holding the i-th data entry),
each with body `body0`, a collider and a controller, and no bullets. -/
def mkSim (datas : List ShipData) : Simulation :=
  { ships := List.range datas.length
    ship_data := fun h => datas[h]?
    bodies := fun h => if h < datas.length then some body0 else none
    colliders := fun h => if h < datas.length then some () else none
    ship_controllers := fun h => if h < datas.length then some () else none
    bullets := [] }

/-- A one-ship world (team 0). -/
def simA : Simulation := mkSim [dataTeam 0]

/-- C3: `accelerate` stores the componentwise clamp of the requested
acceleration to the box bounded by `max_acceleration`, and a second call
overwrites the first: the composite world equals the world produced by the
second call alone. -/
theorem accelerate_clamps_and_overwrites
    (sim : Simulation) (handle : ShipHandle) (d : ShipData)
    (hd : sim.ship_data handle = some d)
    (hx : 0 ≤ d.max_acceleration.x) (hy : 0 ≤ d.max_acceleration.y)
    (a₁ a₂ : Vec2) :
    (accelerate sim handle a₂).ship_data handle =
      some { d with acceleration := clamp_accel a₂ d.max_acceleration } ∧
    |(clamp_accel a₂ d.max_acceleration).x| ≤ d.max_acceleration.x ∧
    |(clamp_accel a₂ d.max_acceleration).y| ≤ d.max_acceleration.y ∧
    accelerate (accelerate sim handle a₁) handle a₂ =
      accelerate sim handle a₂ := by
  refine ⟨?_, ?_, ?_, ?_⟩
  · simp [accelerate, hd, updf_self]
  · simp only [clamp_accel, Vec2.inf, Vec2.sup, Vec2.neg_x]
    rw [abs_le]
    constructor
    · exact le_max_right _ _
    · exact max_le (min_le_right _ _) (by linarith)
  · simp only [clamp_accel, Vec2.inf, Vec2.sup, Vec2.neg_y]
    rw [abs_le]
    constructor
    · exact le_max_right _ _
    · exact max_le (min_le_right _ _) (by linarith)
  · simp [accelerate, hd, updf_self, updf_updf]

/-- Witness for C3 at a concrete world: the theorem applied to `simA`,
handle 0, and requests (1000, -1000) then (50, 300). -/
theorem accelerate_clamps_and_overwrites_witness :
    simA.ship_data 0 = some (dataTeam 0) ∧
    (0 : ℚ) ≤ (dataTeam 0).max_acceleration.x ∧
    (0 : ℚ) ≤ (dataTeam 0).max_acceleration.y ∧
    ((accelerate simA 0 ⟨50, 300⟩).ship_data 0 =
      some { dataTeam 0 with
              acceleration := clamp_accel ⟨50, 300⟩ (dataTeam 0).max_acceleration } ∧
    |(clamp_accel ⟨50, 300⟩ (dataTeam 0).max_acceleration).x| ≤
      (dataTeam 0).max_acceleration.x ∧
    |(clamp_accel ⟨50, 300⟩ (dataTeam 0).max_acceleration).y| ≤
      (dataTeam 0).max_acceleration.y ∧
    accelerate (accelerate simA 0 ⟨1000, -1000⟩) 0 ⟨50, 300⟩ =
      accelerate simA 0 ⟨50, 300⟩) :=
  ⟨rfl, by norm_num [dataTeam], by norm_num [dataTeam],
    accelerate_clamps_and_overwrites simA 0 (dataTeam 0) rfl
      (by norm_num [dataTeam]) (by norm_num [dataTeam]) ⟨1000, -1000⟩ ⟨50, 300⟩⟩

/-- An empty world. -/
def simEmpty : Simulation := mkSim []

/-- A one-ship world whose ship is on team 5. -/
def simB : Simulation := mkSim [dataTeam 5]

/-- A two-ship world with ships on teams 0 and 1. -/
def simC : Simulation := mkSim [dataTeam 0, dataTeam 1]

/-- A one-ship world whose ship is on team 1. -/
def simD : Simulation := mkSim [dataTeam 1]

/-- A fighter-like ship already marked destroyed. -/
def dataDes : ShipData := { dataTeam 0 with destroyed := true }

/-- A one-ship world whose ship is already marked destroyed. -/
def simDes : Simulation := mkSim [dataDes]

/-- C7: `check_victory` collects the distinct teams of the world's
non-Missile ships (`alive_teams`, a duplicate-free list whose members are
exactly those teams) and returns `Victory 0` when there are none,
`Victory t` when `t` is the only one, and `Running` when there are two or
more. -/
theorem check_victory_spec (sim : Simulation) :
    ((alive_teams sim).Nodup ∧ ∀ t : ℤ,
        t ∈ alive_teams sim ↔ ∃ handle ∈ sim.ships, ∃ d : ShipData,
          sim.ship_data handle = some d ∧ d.«class» ≠ ShipClass.Missile ∧
          d.team = t) ∧
    (alive_teams sim = [] → check_victory sim = Status.Victory 0) ∧
    (∀ t : ℤ, alive_teams sim = [t] → check_victory sim = Status.Victory t) ∧
    (2 ≤ (alive_teams sim).length → check_victory sim = Status.Running) := by
  refine ⟨⟨List.nodup_dedup _, ?_⟩, ?_, ?_, ?_⟩
  · intro t
    simp only [alive_teams, List.mem_dedup, List.mem_filterMap]
    constructor
    · rintro ⟨handle, hmem, hf⟩
      refine ⟨handle, hmem, ?_⟩
      cases hsd : sim.ship_data handle with
      | none => rw [hsd] at hf; exact absurd hf (by simp)
      | some d =>
        rw [hsd] at hf
        by_cases hc : d.«class» = ShipClass.Missile
        · simp [hc] at hf
        · simp only [hc, if_false] at hf
          exact ⟨d, rfl, hc, by simpa using hf⟩
    · rintro ⟨handle, hmem, d, hsd, hc, ht⟩
      exact ⟨handle, hmem, by rw [hsd]; simp [hc, ht]⟩
  · intro h
    simp [check_victory, h]
  · intro t h
    simp [check_victory, h]
  · intro h2
    have hne : ¬((alive_teams sim).isEmpty = true) := by
      cases h : alive_teams sim with
      | nil => rw [h] at h2; simp at h2
      | cons a l => simp [h]
    have hlen : ¬((alive_teams sim).length = 1) := by omega
    simp [check_victory, hne, hlen]

/-- Witness for C7: the theorem applied to three concrete worlds — empty
(zero distinct teams, `Victory 0`), one ship on team 5 (`Victory 5`), and
two ships on teams 0 and 1 (`Running`). -/
theorem check_victory_spec_witness :
    alive_teams simEmpty = [] ∧ check_victory simEmpty = Status.Victory 0 ∧
    alive_teams simB = [5] ∧ check_victory simB = Status.Victory 5 ∧
    2 ≤ (alive_teams simC).length ∧ check_victory simC = Status.Running :=
  ⟨by decide, (check_victory_spec simEmpty).2.1 (by decide),
   by decide, (check_victory_spec simB).2.2.1 5 (by decide),
   by decide, (check_victory_spec simC).2.2.2 (by decide)⟩

/-- C8: `check_tutorial_victory` maps a `Victory` for any nonzero team to
`Failed`, and passes `Victory 0` and `Running` through unchanged. -/
theorem check_tutorial_victory_spec (sim : Simulation) :
    (∀ t : ℤ, t ≠ 0 → check_victory sim = Status.Victory t →
      check_tutorial_victory sim = Status.Failed) ∧
    (check_victory sim = Status.Victory 0 →
      check_tutorial_victory sim = Status.Victory 0) ∧
    (check_victory sim = Status.Running →
      check_tutorial_victory sim = Status.Running) := by
  refine ⟨?_, ?_, ?_⟩
  · intro t ht hv
    simp [check_tutorial_victory, hv, ht]
  · intro hv
    simp [check_tutorial_victory, hv]
  · intro hv
    simp [check_tutorial_victory, hv]

/-- Witness for C8: the theorem applied to concrete worlds where the shared
victory check returns `Victory 1`, `Victory 0` and `Running` respectively. -/
theorem check_tutorial_victory_spec_witness :
    ((1 : ℤ) ≠ 0 ∧ check_victory simD = Status.Victory 1 ∧
      check_tutorial_victory simD = Status.Failed) ∧
    (check_victory simEmpty = Status.Victory 0 ∧
      check_tutorial_victory simEmpty = Status.Victory 0) ∧
    (check_victory simC = Status.Running ∧
      check_tutorial_victory simC = Status.Running) :=
  ⟨⟨by decide, by decide,
    (check_tutorial_victory_spec simD).1 1 (by decide) (by decide)⟩,
   ⟨by decide, (check_tutorial_victory_spec simEmpty).2.1 (by decide)⟩,
   ⟨by decide, (check_tutorial_victory_spec simC).2.2 (by decide)⟩⟩

/-! ### The ship data written back by `tick` -/

/-- The ship-data record as rewritten by steps (1)-(4) of
`ShipAccessorMut::tick`: weapons and missile countdowns decremented by `dt`
and floored at 0, radar `scanned` cleared, pending acceleration and angular
acceleration zeroed.  (Step (5) does not touch the ship-data map.) -/
def tick_ship_data (dt : ℚ) (d : ShipData) : ShipData :=
  { d with
    weapons := d.weapons.map fun weapon =>
      { weapon with
        reload_time_remaining := max (weapon.reload_time_remaining - dt) 0 }
    missile := d.missile.map fun missile =>
      { missile with
        reload_time_remaining := max (missile.reload_time_remaining - dt) 0 }
    radar := d.radar.map fun radar => { radar with scanned := false }
    acceleration := ⟨0, 0⟩
    angular_acceleration := 0 }

theorem tick_ship_data_lookup (sim : Simulation) (handle : ShipHandle)
    (d : ShipData) (b : RigidBody)
    (hd : sim.ship_data handle = some d) (hb : sim.bodies handle = some b)
    (dt : ℚ) :
    (tick dt sim handle).ship_data handle = some (tick_ship_data dt d) := by
  by_cases hdes : d.destroyed <;>
    simp [tick, tick_ship_data, hd, hb, hdes, updf_self]

/-! ### Behaviour of `fire_weapon`, case by case -/

theorem fire_weapon_out_of_range (sim : Simulation) (handle : ShipHandle)
    (d : ShipData) (hd : sim.ship_data handle = some d) (index : ℤ)
    (hge : usize_of_i64 index ≥ d.weapons.length) :
    fire_weapon sim handle index = sim := by
  simp only [fire_weapon, hd]
  rw [if_pos hge]

theorem fire_weapon_reloading (sim : Simulation) (handle : ShipHandle)
    (d : ShipData) (hd : sim.ship_data handle = some d) (index : ℤ) (w : Weapon)
    (hw : d.weapons[usize_of_i64 index]? = some w)
    (hpos : w.reload_time_remaining > 0) :
    fire_weapon sim handle index = sim := by
  have hlt : usize_of_i64 index < d.weapons.length :=
    (List.getElem?_eq_some.mp hw).1
  simp only [fire_weapon, hd]
  rw [if_neg (not_le.mpr hlt), hw]
  simp [hpos]

theorem fire_weapon_fires (sim : Simulation) (handle : ShipHandle)
    (d : ShipData) (b : RigidBody)
    (hd : sim.ship_data handle = some d) (hb : sim.bodies handle = some b)
    (index : ℤ) (w : Weapon)
    (hw : d.weapons[usize_of_i64 index]? = some w)
    (hneg : ¬w.reload_time_remaining > 0) :
    fire_weapon sim handle index =
      { sim with
        ship_data := updf sim.ship_data handle
          (some { d with
            weapons := d.weapons.set (usize_of_i64 index)
              { w with reload_time_remaining :=
                  w.reload_time_remaining + w.reload_time } })
        bullets := sim.bullets ++
          [⟨b.translation + b.rotation.transform_vector ⟨20, 0⟩,
            b.linvel + b.rotation.transform_vector ⟨1000, 0⟩,
            ⟨w.damage, d.team⟩⟩] } := by
  have hlt : usize_of_i64 index < d.weapons.length :=
    (List.getElem?_eq_some.mp hw).1
  simp only [fire_weapon, hd]
  rw [if_neg (not_le.mpr hlt), hw]
  simp only [hneg, if_false]
  simp [hb, bullet_create]
  exact ⟨rfl, rfl⟩

/-- C5: `fire_weapon` is a silent no-op when the index is out of range of the
weapon list or when that weapon is still reloading; otherwise (with the
reload countdown at its rest value 0, as the reload invariant guarantees for
a non-reloading weapon) it resets `reload_time_remaining` to `reload_time`
and appends exactly one bullet at the body-local muzzle offset (20, 0),
with velocity equal to the ship's velocity plus the muzzle speed 1000
rotated by the ship's orientation, carrying the weapon's damage and the
ship's team. -/
theorem fire_weapon_spec (sim : Simulation) (handle : ShipHandle)
    (d : ShipData) (b : RigidBody)
    (hd : sim.ship_data handle = some d) (hb : sim.bodies handle = some b)
    (index : ℤ) :
    (usize_of_i64 index ≥ d.weapons.length →
      fire_weapon sim handle index = sim) ∧
    (∀ w : Weapon, d.weapons[usize_of_i64 index]? = some w →
      w.reload_time_remaining > 0 → fire_weapon sim handle index = sim) ∧
    (∀ w : Weapon, d.weapons[usize_of_i64 index]? = some w →
      0 ≤ w.reload_time_remaining → ¬w.reload_time_remaining > 0 →
      fire_weapon sim handle index =
        { sim with
          ship_data := updf sim.ship_data handle
            (some { d with
              weapons := d.weapons.set (usize_of_i64 index)
                { w with reload_time_remaining := w.reload_time } })
          bullets := sim.bullets ++
            [⟨b.translation + b.rotation.transform_vector ⟨20, 0⟩,
              b.linvel + b.rotation.transform_vector ⟨1000, 0⟩,
              ⟨w.damage, d.team⟩⟩] }) := by
  refine ⟨fun hge => fire_weapon_out_of_range sim handle d hd index hge,
    fun w hw hpos => fire_weapon_reloading sim handle d hd index w hw hpos,
    fun w hw h0 hneg => ?_⟩
  have hz : w.reload_time_remaining = 0 := le_antisymm (not_lt.mp hneg) h0
  rw [fire_weapon_fires sim handle d b hd hb index w hw hneg, hz, zero_add]

/-- A fighter-like ship whose single gun is mid-reload: reload time 1/5,
reload time remaining 1/10. -/
def dataMid : ShipData := { dataTeam 0 with weapons := [⟨1/5, 1/10, 20⟩] }

/-- A one-ship world holding the mid-reload ship `dataMid`. -/
def simMid : Simulation := mkSim [dataMid]

/-- Witness for C5: the theorem applied at concrete worlds covering the
three cases — index 7 out of range, a mid-reload gun, and a ready gun
(which spawns exactly one bullet). -/
theorem fire_weapon_spec_witness :
    simA.ship_data 0 = some (dataTeam 0) ∧
    simA.bodies 0 = some body0 ∧
    fire_weapon simA 0 7 = simA ∧
    fire_weapon simMid 0 0 = simMid ∧
    (fire_weapon simA 0 0).bullets.length = 1 :=
  ⟨rfl, rfl,
    (fire_weapon_spec simA 0 (dataTeam 0) body0 rfl rfl 7).1 (by decide),
    (fire_weapon_spec simMid 0 dataMid body0 rfl rfl 0).2.1
      ⟨1/5, 1/10, 20⟩ rfl (by norm_num),
    by
      rw [(fire_weapon_spec simA 0 (dataTeam 0) body0 rfl rfl 0).2.2
        ⟨1/5, 0, 20⟩ rfl (by norm_num) (by norm_num)]
      rfl⟩

/-- C4 (amended): the reload invariant 0 ≤ reload_time_remaining ≤
reload_time is preserved: `tick` only decreases the countdown toward 0,
and `fire_weapon` only resets it upward.  Consequently two `fire_weapon`
calls within one tick, with reload_time greater than the tick length,
spawn at most one bullet; when the weapon was ready (countdown 0) they
spawn exactly one and leave the countdown at exactly reload_time, and when
it was mid-reload they spawn none and leave the world unchanged. -/
theorem reload_invariant_and_double_fire (sim : Simulation)
    (handle : ShipHandle) (d : ShipData) (b : RigidBody)
    (hd : sim.ship_data handle = some d) (hb : sim.bodies handle = some b)
    (dt : ℚ) (hdt : 0 < dt) (index : ℤ) (w : Weapon)
    (hw : d.weapons[usize_of_i64 index]? = some w)
    (h0 : 0 ≤ w.reload_time_remaining)
    (h1 : w.reload_time_remaining ≤ w.reload_time) :
    (0 ≤ max (w.reload_time_remaining - dt) 0 ∧
      max (w.reload_time_remaining - dt) 0 ≤ w.reload_time ∧
      max (w.reload_time_remaining - dt) 0 ≤ w.reload_time_remaining ∧
      ∃ d' : ShipData, (tick dt sim handle).ship_data handle = some d' ∧
        d'.weapons[usize_of_i64 index]? =
          some { w with
            reload_time_remaining := max (w.reload_time_remaining - dt) 0 }) ∧
    (∃ d' : ShipData, (fire_weapon sim handle index).ship_data handle = some d' ∧
      ∃ w' : Weapon, d'.weapons[usize_of_i64 index]? = some w' ∧
        w'.reload_time = w.reload_time ∧
        0 ≤ w'.reload_time_remaining ∧
        w'.reload_time_remaining ≤ w'.reload_time ∧
        w.reload_time_remaining ≤ w'.reload_time_remaining) ∧
    (dt < w.reload_time →
      (fire_weapon (fire_weapon sim handle index) handle index).bullets.length ≤
        sim.bullets.length + 1 ∧
      (w.reload_time_remaining = 0 →
        (fire_weapon (fire_weapon sim handle index) handle
            index).bullets.length = sim.bullets.length + 1 ∧
        ∃ d' : ShipData,
          (fire_weapon (fire_weapon sim handle index) handle
              index).ship_data handle = some d' ∧
          d'.weapons[usize_of_i64 index]? =
            some { w with reload_time_remaining := w.reload_time }) ∧
      (0 < w.reload_time_remaining →
        fire_weapon (fire_weapon sim handle index) handle index = sim)) := by
  have hlt : usize_of_i64 index < d.weapons.length :=
    (List.getElem?_eq_some.mp hw).1
  constructor
  · refine ⟨le_max_right _ _, max_le (by linarith) (by linarith),
      max_le (by linarith) h0, ?_⟩
    refine ⟨tick_ship_data dt d,
      tick_ship_data_lookup sim handle d b hd hb dt, ?_⟩
    simp [tick_ship_data, hw]
  constructor
  · by_cases hpos : w.reload_time_remaining > 0
    · refine ⟨d, ?_, w, hw, rfl, h0, h1, le_refl _⟩
      rw [fire_weapon_reloading sim handle d hd index w hw hpos]
      exact hd
    · refine ⟨{ d with weapons := (d.weapons.set (usize_of_i64 index)
          ⟨w.reload_time, w.reload_time_remaining + w.reload_time,
            w.damage⟩) }, ?_, ?_⟩
      · rw [fire_weapon_fires sim handle d b hd hb index w hw hpos]
        exact updf_self _ _ _
      · refine ⟨{ w with reload_time_remaining :=
            w.reload_time_remaining + w.reload_time }, ?_, rfl, ?_, ?_, ?_⟩
        · simp [List.getElem?_set_self, hlt]
        · have hz : w.reload_time_remaining = 0 :=
            le_antisymm (not_lt.mp hpos) h0
          simp [hz]
          linarith
        · simp
          linarith
        · simp
          linarith
  · intro hrt
    by_cases hpos : w.reload_time_remaining > 0
    · have hmiss : fire_weapon sim handle index = sim :=
        fire_weapon_reloading sim handle d hd index w hw hpos
      rw [hmiss, hmiss]
      exact ⟨by omega, fun hz => absurd hz (by linarith), fun _ => rfl⟩
    · have hz : w.reload_time_remaining = 0 := le_antisymm (not_lt.mp hpos) h0
      have hfire := fire_weapon_fires sim handle d b hd hb index w hw hpos
      set d₁ : ShipData := { d with
        weapons := d.weapons.set (usize_of_i64 index)
          { w with reload_time_remaining :=
              w.reload_time_remaining + w.reload_time } } with hd₁
      have hs₁d : (fire_weapon sim handle index).ship_data handle = some d₁ := by
        rw [hfire]
        exact updf_self _ _ _
      have hw₁ : d₁.weapons[usize_of_i64 index]? =
          some { w with reload_time_remaining :=
            w.reload_time_remaining + w.reload_time } := by
        rw [hd₁]
        simp [List.getElem?_set_self, hlt]
      have hpos₁ : ({ w with reload_time_remaining :=
          w.reload_time_remaining + w.reload_time } : Weapon).reload_time_remaining
          > 0 := by
        simp [hz]
        linarith
      have hmiss₂ : fire_weapon (fire_weapon sim handle index) handle index =
          fire_weapon sim handle index :=
        fire_weapon_reloading _ handle d₁ hs₁d index _ hw₁ hpos₁
      have hlen : (fire_weapon sim handle index).bullets.length =
          sim.bullets.length + 1 := by
        rw [hfire]
        simp
      refine ⟨by rw [hmiss₂, hlen], fun _ => ⟨by rw [hmiss₂, hlen], ?_⟩,
        fun hc => absurd hc (by linarith)⟩
      refine ⟨d₁, by rw [hmiss₂]; exact hs₁d, ?_⟩
      rw [hw₁, hz, zero_add]

/-- Witness for C4 at a concrete world: the theorem applied to `simA`
(one ready gun with reload time 1/5), tick length 1/60, index 0. -/
theorem reload_invariant_and_double_fire_witness :
    simA.ship_data 0 = some (dataTeam 0) ∧
    simA.bodies 0 = some body0 ∧
    (0 : ℚ) < 1/60 ∧
    (dataTeam 0).weapons[usize_of_i64 0]? = some ⟨1/5, 0, 20⟩ ∧
    (0 : ℚ) ≤ (0 : ℚ) ∧ (0 : ℚ) ≤ (1 : ℚ)/5 ∧
    (fire_weapon (fire_weapon simA 0 0) 0 0).bullets.length ≤
      simA.bullets.length + 1 :=
  ⟨rfl, rfl, by norm_num, rfl, le_refl 0, by norm_num,
    ((reload_invariant_and_double_fire simA 0 (dataTeam 0) body0 rfl rfl
      (1/60) (by norm_num) 0 ⟨1/5, 0, 20⟩ rfl (by norm_num)
      (by norm_num)).2.2 (by norm_num)).1⟩

/-- Counterexample for C4 as stated: in the world `simMid` the single gun
satisfies the reload invariant (countdown 1/10, reload time 1/5) and the
reload time 1/5 exceeds the tick length 1/60, yet two `fire_weapon` calls
leave the world unchanged — the countdown stays 1/10, which is not the
claimed value reload_time = 1/5. -/
theorem reload_double_fire_counterexample :
    simMid.ship_data 0 = some dataMid ∧
    dataMid.weapons[usize_of_i64 0]? = some ⟨1/5, 1/10, 20⟩ ∧
    (0 : ℚ) ≤ 1/10 ∧ (1 : ℚ)/10 ≤ 1/5 ∧ (1 : ℚ)/60 < 1/5 ∧
    fire_weapon (fire_weapon simMid 0 0) 0 0 = simMid ∧
    (((fire_weapon (fire_weapon simMid 0 0) 0 0).ship_data 0).map
        fun d => d.weapons.map Weapon.reload_time_remaining) = some [1/10] ∧
    (1 : ℚ)/10 ≠ 1/5 := by
  have hmiss : fire_weapon simMid 0 0 = simMid :=
    fire_weapon_reloading simMid 0 dataMid rfl 0 ⟨1/5, 1/10, 20⟩ rfl
      (by norm_num)
  refine ⟨rfl, rfl, by norm_num, by norm_num, by norm_num, ?_, ?_, by norm_num⟩
  · rw [hmiss, hmiss]
  · rw [hmiss, hmiss]
    rfl

/-! ### Characterization of `explode` -/

theorem foldl_bullet_append (g : ℕ → Bullet) (l : List ℕ) (s : Simulation) :
    l.foldl (fun s i => { s with bullets := s.bullets ++ [g i] }) s =
      { s with bullets := s.bullets ++ l.map g } := by
  induction l generalizing s with
  | nil => simp
  | cons a t ih =>
    simp only [List.foldl_cons, List.map_cons]
    rw [ih]
    simp [List.append_assoc]

theorem explode_eq (rng_rot : ℕ → ℕ → Rot) (sim : Simulation)
    (handle : ShipHandle) (d : ShipData) (b : RigidBody)
    (hd : sim.ship_data handle = some d) (hb : sim.bodies handle = some b)
    (hlive : d.destroyed = false) :
    explode rng_rot sim handle =
      { sim with
        ship_data := updf sim.ship_data handle
          (some { d with destroyed := true })
        bullets := sim.bullets ++ (List.range 25).map fun i =>
          ⟨b.translation,
            b.linvel + (rng_rot 0 i).transform_vector ⟨1000, 0⟩,
            ⟨20, d.team⟩⟩ } := by
  simp only [explode, hd, hlive, Bool.false_eq_true, if_false, hb,
    bullet_create]
  rw [foldl_bullet_append (fun i =>
    ⟨b.translation,
      b.linvel + (rng_rot 0 i).transform_vector ⟨1000, 0⟩,
      ⟨20, d.team⟩⟩)]

/-- C6: `explode` on a live ship marks it destroyed and appends exactly 25
bullets at the ship's position, each with damage 20 and the ship's team;
a second call on the now-destroyed ship is a no-op, so two calls spawn
exactly 25 bullets in total and the ship stays destroyed. -/
theorem explode_idempotent (rng_rot : ℕ → ℕ → Rot) (sim : Simulation)
    (handle : ShipHandle) (d : ShipData) (b : RigidBody)
    (hd : sim.ship_data handle = some d) (hb : sim.bodies handle = some b)
    (hlive : d.destroyed = false) :
    (explode rng_rot sim handle).ship_data handle =
      some { d with destroyed := true } ∧
    (explode rng_rot sim handle).bullets =
      sim.bullets ++ (List.range 25).map (fun i =>
        ⟨b.translation, b.linvel + (rng_rot 0 i).transform_vector ⟨1000, 0⟩,
          ⟨20, d.team⟩⟩) ∧
    (explode rng_rot sim handle).bullets.length = sim.bullets.length + 25 ∧
    explode rng_rot (explode rng_rot sim handle) handle =
      explode rng_rot sim handle ∧
    (explode rng_rot (explode rng_rot sim handle) handle).bullets.length =
      sim.bullets.length + 25 := by
  have hE := explode_eq rng_rot sim handle d b hd hb hlive
  have h1 : (explode rng_rot sim handle).ship_data handle =
      some { d with destroyed := true } := by
    rw [hE]
    exact updf_self _ _ _
  have h4 : explode rng_rot (explode rng_rot sim handle) handle =
      explode rng_rot sim handle := by
    set s₁ := explode rng_rot sim handle with hs₁
    simp [explode, h1]
  have h3 : (explode rng_rot sim handle).bullets.length =
      sim.bullets.length + 25 := by
    rw [hE]
    simp
  exact ⟨h1, by rw [hE], h3, h4, by rw [h4, h3]⟩

/-- A concrete stand-in for the stream of rotations drawn from the seeded
random source: every draw is the identity rotation. -/
def rngK : ℕ → ℕ → Rot := fun _ _ => ⟨1, 0⟩

/-- Witness for C6: the theorem applied to the concrete world `simA` with
the concrete rotation stream `rngK`. -/
theorem explode_idempotent_witness :
    simA.ship_data 0 = some (dataTeam 0) ∧
    simA.bodies 0 = some body0 ∧
    (dataTeam 0).destroyed = false ∧
    (explode rngK simA 0).bullets.length = simA.bullets.length + 25 ∧
    explode rngK (explode rngK simA 0) 0 = explode rngK simA 0 ∧
    (explode rngK (explode rngK simA 0) 0).bullets.length =
      simA.bullets.length + 25 :=
  ⟨rfl, rfl, rfl,
    (explode_idempotent rngK simA 0 (dataTeam 0) body0 rfl rfl rfl).2.2.1,
    (explode_idempotent rngK simA 0 (dataTeam 0) body0 rfl rfl rfl).2.2.2.1,
    (explode_idempotent rngK simA 0 (dataTeam 0) body0 rfl rfl rfl).2.2.2.2⟩

theorem Vec2.add_sub_cancel_vec (a v : Vec2) : (a + v) - a = v := by
  cases v with
  | mk x y =>
    show (⟨a.x + x - a.x, a.y + y - a.y⟩ : Vec2) = ⟨x, y⟩
    rw [add_sub_cancel_left, add_sub_cancel_left]

/-- C10: the direction sequence of explosion bullets is drawn from the
random source seeded with the constant 0, so it is the same fixed sequence
for every explosion of every ship in every world: for any two live ships,
the spawned bullets' velocities minus the respective ship's own velocity
give the same list of 25 vectors, namely the seed-0 draws rotated onto the
fixed speed-1000 muzzle vector. -/
theorem explode_seed_zero_determinism (rng_rot : ℕ → ℕ → Rot)
    (sim₁ : Simulation) (handle₁ : ShipHandle) (d₁ : ShipData) (b₁ : RigidBody)
    (hd₁ : sim₁.ship_data handle₁ = some d₁)
    (hb₁ : sim₁.bodies handle₁ = some b₁) (hlive₁ : d₁.destroyed = false)
    (sim₂ : Simulation) (handle₂ : ShipHandle) (d₂ : ShipData) (b₂ : RigidBody)
    (hd₂ : sim₂.ship_data handle₂ = some d₂)
    (hb₂ : sim₂.bodies handle₂ = some b₂) (hlive₂ : d₂.destroyed = false) :
    (((explode rng_rot sim₁ handle₁).bullets.drop sim₁.bullets.length).map
        fun bl => bl.velocity - b₁.linvel) =
      (List.range 25).map (fun i => (rng_rot 0 i).transform_vector ⟨1000, 0⟩) ∧
    (((explode rng_rot sim₂ handle₂).bullets.drop sim₂.bullets.length).map
        fun bl => bl.velocity - b₂.linvel) =
      (List.range 25).map (fun i => (rng_rot 0 i).transform_vector ⟨1000, 0⟩) ∧
    (((explode rng_rot sim₁ handle₁).bullets.drop sim₁.bullets.length).map
        fun bl => bl.velocity - b₁.linvel) =
      (((explode rng_rot sim₂ handle₂).bullets.drop sim₂.bullets.length).map
        fun bl => bl.velocity - b₂.linvel) := by
  have key : ∀ (sim : Simulation) (handle : ShipHandle) (d : ShipData)
      (b : RigidBody), sim.ship_data handle = some d →
      sim.bodies handle = some b → d.destroyed = false →
      (((explode rng_rot sim handle).bullets.drop sim.bullets.length).map
          fun bl => bl.velocity - b.linvel) =
        (List.range 25).map
          (fun i => (rng_rot 0 i).transform_vector ⟨1000, 0⟩) := by
    intro sim handle d b hd hb hlive
    rw [explode_eq rng_rot sim handle d b hd hb hlive]
    show (((sim.bullets ++ _).drop sim.bullets.length).map _) = _
    rw [List.drop_left, List.map_map]
    refine List.map_congr_left fun i _ => ?_
    exact Vec2.add_sub_cancel_vec _ _
  have k₁ := key sim₁ handle₁ d₁ b₁ hd₁ hb₁ hlive₁
  have k₂ := key sim₂ handle₂ d₂ b₂ hd₂ hb₂ hlive₂
  exact ⟨k₁, k₂, by rw [k₁, k₂]⟩

/-- Witness for C10: the theorem applied to two concrete worlds, `simA`
(team 0) and `simB` (team 5), with the concrete rotation stream `rngK`. -/
theorem explode_seed_zero_determinism_witness :
    simA.ship_data 0 = some (dataTeam 0) ∧
    simA.bodies 0 = some body0 ∧
    (dataTeam 0).destroyed = false ∧
    simB.ship_data 0 = some (dataTeam 5) ∧
    simB.bodies 0 = some body0 ∧
    (dataTeam 5).destroyed = false ∧
    (((explode rngK simA 0).bullets.drop simA.bullets.length).map
        fun bl => bl.velocity - body0.linvel) =
      (((explode rngK simB 0).bullets.drop simB.bullets.length).map
        fun bl => bl.velocity - body0.linvel) :=
  ⟨rfl, rfl, rfl, rfl, rfl, rfl,
    (explode_seed_zero_determinism rngK simA 0 (dataTeam 0) body0 rfl rfl rfl
      simB 0 (dataTeam 5) body0 rfl rfl rfl).2.2⟩

/-- C2: `tick` performs exactly the five steps of the claim in order — (1)
decrement the weapon and missile reload countdowns (`tick_weapons`), (2)
clear the radar's scanned flag (`tick_radar`), (3) rotate the pending
acceleration into world space, scale by mass, apply as a force and zero the
pending value (`tick_acceleration`), (4) scale the pending angular
acceleration by the moment of inertia, apply as torque and zero the pending
value (`tick_torque`), and (5) last, if destroyed, remove the ship and its
body/collider from the world (`tick_destruction`). -/
theorem tick_decomposition (dt : ℚ) (sim : Simulation) (handle : ShipHandle)
    (d : ShipData) (b : RigidBody)
    (hd : sim.ship_data handle = some d) (hb : sim.bodies handle = some b) :
    tick dt sim handle =
      tick_destruction
        (tick_torque
          (tick_acceleration
            (tick_radar (tick_weapons dt sim handle) handle) handle) handle)
        handle := by
  by_cases hdes : d.destroyed <;>
    simp [tick, tick_weapons, tick_radar, tick_acceleration, tick_torque,
      tick_destruction, hd, hb, hdes, updf_self, updf_updf,
      RigidBody.apply_force, RigidBody.apply_torque]

/-- Witness for C2: the decomposition applied at the concrete world `simA`
with tick length 1/60. -/
theorem tick_decomposition_witness :
    simA.ship_data 0 = some (dataTeam 0) ∧
    simA.bodies 0 = some body0 ∧
    tick (1/60) simA 0 =
      tick_destruction
        (tick_torque
          (tick_acceleration (tick_radar (tick_weapons (1/60) simA 0) 0) 0) 0)
        0 :=
  ⟨rfl, rfl, tick_decomposition (1/60) simA 0 (dataTeam 0) body0 rfl rfl⟩

/-! ### Destroyed ships after `tick` -/

theorem tick_eq_of_destroyed (dt : ℚ) (sim : Simulation) (handle : ShipHandle)
    (d : ShipData) (b : RigidBody)
    (hd : sim.ship_data handle = some d) (hb : sim.bodies handle = some b)
    (hdes : d.destroyed = true) :
    tick dt sim handle =
      { sim with
        ships := sim.ships.filter fun s => s ≠ handle
        ship_data := updf sim.ship_data handle (some (tick_ship_data dt d))
        bodies := updf sim.bodies handle none
        colliders := updf sim.colliders handle none } := by
  simp [tick, tick_ship_data, hd, hb, hdes, updf_updf]

/-- C1 (amended): when `tick` runs on a ship whose destroyed flag is true,
the ship is removed from the ship set and its physics body and collider are
removed, so it is absent from the ship set (hence from any iteration over
it, such as victory evaluation) and from the physics world on the following
tick; but its entries in the per-handle ship-data map and in the controller
map are not removed. -/
theorem tick_removes_destroyed (dt : ℚ) (sim : Simulation)
    (handle : ShipHandle) (d : ShipData) (b : RigidBody)
    (hd : sim.ship_data handle = some d) (hb : sim.bodies handle = some b)
    (hdes : d.destroyed = true) :
    handle ∉ (tick dt sim handle).ships ∧
    (tick dt sim handle).ships = sim.ships.filter (fun s => s ≠ handle) ∧
    (tick dt sim handle).bodies handle = none ∧
    (tick dt sim handle).colliders handle = none ∧
    (tick dt sim handle).ship_data handle = some (tick_ship_data dt d) ∧
    (tick dt sim handle).ship_controllers = sim.ship_controllers := by
  rw [tick_eq_of_destroyed dt sim handle d b hd hb hdes]
  refine ⟨?_, rfl, updf_self _ _ _, updf_self _ _ _, updf_self _ _ _, rfl⟩
  intro hmem
  have := (List.mem_filter.mp hmem).2
  simp at this

/-- Witness for C1: the amended theorem applied to the concrete one-ship
world `simDes` whose ship is already marked destroyed. -/
theorem tick_removes_destroyed_witness :
    simDes.ship_data 0 = some dataDes ∧
    simDes.bodies 0 = some body0 ∧
    dataDes.destroyed = true ∧
    (0 : ShipHandle) ∉ (tick (1/60) simDes 0).ships ∧
    (tick (1/60) simDes 0).bodies 0 = none ∧
    (tick (1/60) simDes 0).ship_controllers = simDes.ship_controllers :=
  ⟨rfl, rfl, rfl,
    (tick_removes_destroyed (1/60) simDes 0 dataDes body0 rfl rfl rfl).1,
    (tick_removes_destroyed (1/60) simDes 0 dataDes body0 rfl rfl rfl).2.2.1,
    (tick_removes_destroyed (1/60) simDes 0 dataDes body0 rfl rfl rfl).2.2.2.2.2⟩

/-- Counterexample for C1 as stated: in the one-ship world `simDes`, whose
ship (handle 0) has destroyed = true, running `tick` removes the ship from
the ship set and removes its body and collider, but its ship-data map entry
and its controller map entry are still present afterward — the ship is not
"removed from every store". -/
theorem tick_removes_destroyed_counterexample :
    (simDes.ship_data 0).map ShipData.destroyed = some true ∧
    (tick (1/60) simDes 0).ships = [] ∧
    (tick (1/60) simDes 0).bodies 0 = none ∧
    (tick (1/60) simDes 0).colliders 0 = none ∧
    ((tick (1/60) simDes 0).ship_data 0).isSome = true ∧
    ((tick (1/60) simDes 0).ship_controllers 0).isSome = true := by
  have hE := tick_eq_of_destroyed (1/60) simDes 0 dataDes body0 rfl rfl rfl
  rw [hE]
  refine ⟨rfl, by decide, ?_, ?_, ?_, rfl⟩
  · show updf simDes.bodies 0 none 0 = none
    exact updf_self _ _ _
  · show updf simDes.colliders 0 none 0 = none
    exact updf_self _ _ _
  · show (updf simDes.ship_data 0
      (some (tick_ship_data (1/60) dataDes)) 0).isSome = true
    rw [updf_self]
    rfl

/-- C9: every value of the core status type is `Running`, `Failed`, or a
`Victory` for some team — the type defined in src/simulator/src/scenario.rs
has exactly these three outcome shapes and no fourth (`Draw`) variant,
although src/tools/src/bin/tournament.rs matches on `scenario::Status::Draw`
and the specification lists Draw among the outcomes. -/
theorem status_has_exactly_three_outcomes (s : Status) :
    s = Status.Running ∨ s = Status.Failed ∨
      ∃ team : ℤ, s = Status.Victory team := by
  cases s with
  | Running => exact Or.inl rfl
  | Victory team => exact Or.inr (Or.inr ⟨team, rfl⟩)
  | Failed => exact Or.inr (Or.inl rfl)

end Oort
